import Mathlib

/-!
Verification of the WeatherWizard likelihood engine (`src/script.js`).

Finite JavaScript numbers are modelled as exact rationals (`ℚ`); on finite
values, JavaScript `Math.round` rounds to the nearest integer with ties
toward positive infinity, i.e. `⌊x + 1/2⌋`.  For the NaN edge cases a
second model `JSNum := Option ℚ` is used, where `none` stands for `NaN`
and the arithmetic operators and `Math.min` / `Math.max` / `Math.round`
propagate `NaN` exactly as JavaScript does (every binary operator, `min`
and `max` return `NaN` as soon as one operand is `NaN`).
-/

namespace WeatherWizard

/-- The five canonical metrics destructured from `params` in
`calculateLikelihoods` (src/script.js line 67). -/
structure CanonicalMetrics where
  tempMax : ℚ
  tempMin : ℚ
  windMax : ℚ
  precipitationSum : ℚ
  avgHumidity : ℚ

/-- The record returned by `calculateLikelihoods` (src/script.js line 90).
Each score is an integer because it is produced by `Math.round`. -/
structure LikelihoodResult where
  veryHot : ℤ
  veryCold : ℤ
  veryWindy : ℤ
  veryWet : ℤ
  veryUncomfortable : ℤ

/-- Constant `MIN_PERCENT` (src/script.js line 66). -/
def MIN_PERCENT : ℤ := 5

/-- JavaScript `Math.round` on a finite number: the nearest integer, with
ties rounded toward positive infinity, i.e. `⌊x + 1/2⌋`. -/
def mathRound (x : ℚ) : ℤ := ⌊x + 1/2⌋

/-- The clamping pattern applied to each score in src/script.js
lines 68-89: `Math.max(MIN_PERCENT, Math.round(Math.min(100, x)))`. -/
def clamp (x : ℚ) : ℤ := max MIN_PERCENT (mathRound (min 100 x))

/-- The intermediate apparent-discomfort temperature
`tempHumidityUncomfortable` (src/script.js lines 84-85):
`tempMax - 0.55 * (1 - avgHumidity / 100) * (tempMax - 14.5)`. -/
def tempHumidityUncomfortable (params : CanonicalMetrics) : ℚ :=
  params.tempMax - 0.55 * (1 - params.avgHumidity / 100) * (params.tempMax - 14.5)

/-- Function `calculateLikelihoods` (src/script.js lines 65-91), on finite
inputs. -/
def calculateLikelihoods (params : CanonicalMetrics) : LikelihoodResult :=
  { veryHot := clamp (params.tempMax / 40 * 100)
    veryCold := clamp ((10 - params.tempMin) / 20 * 100)
    veryWindy := clamp (params.windMax / 30 * 100)
    veryWet := clamp (params.precipitationSum / 50 * 100)
    veryUncomfortable := clamp (tempHumidityUncomfortable params / 35 * 100) }

/-! ### Spec-side definitions (written from the words of the spec, for the
refinement claim C1).  The spec states
`clamp(x) = max(MIN_PERCENT, round(min(100, x)))` with `MIN_PERCENT = 5`
and rounding to the nearest integer, half away from zero. -/

/-- Rounding to the nearest integer, ties away from zero, as one of the
rounding modes named by the spec. -/
def specRound (x : ℚ) : ℤ := if 0 ≤ x then ⌊x + 1/2⌋ else -⌊-x + 1/2⌋

/-- Clamp as the spec words it: cap at 100 first, round to the nearest
integer, then floor at 5. -/
def specClamp (x : ℚ) : ℤ := max 5 (specRound (min 100 x))

/-- The five formulas exactly as the spec words them (section 4.2). -/
def spec_calculateLikelihoods (m : CanonicalMetrics) : LikelihoodResult :=
  { veryHot := specClamp (m.tempMax / 40 * 100)
    veryCold := specClamp ((10 - m.tempMin) / 20 * 100)
    veryWindy := specClamp (m.windMax / 30 * 100)
    veryWet := specClamp (m.precipitationSum / 50 * 100)
    veryUncomfortable :=
      specClamp ((m.tempMax - 0.55 * (1 - m.avgHumidity / 100) * (m.tempMax - 14.5)) / 35 * 100) }

/-! ### The NaN-aware model (for the totality claim C3). -/

/-- A JavaScript number: `none` models `NaN`, `some q` a finite value. -/
abbrev JSNum := Option ℚ

/-- JavaScript subtraction: `NaN` propagates. -/
def jsSub : JSNum → JSNum → JSNum
  | some a, some b => some (a - b)
  | _, _ => none

/-- JavaScript multiplication: `NaN` propagates.  (The source never
multiplies an infinity by zero with finite-or-NaN inputs, so `Option ℚ`
is adequate.) -/
def jsMul : JSNum → JSNum → JSNum
  | some a, some b => some (a * b)
  | _, _ => none

/-- JavaScript division by a nonzero finite constant: `NaN` propagates.
All divisors in `calculateLikelihoods` are the literals 40, 20, 30, 50,
35 and 100. -/
def jsDiv : JSNum → JSNum → JSNum
  | some a, some b => some (a / b)
  | _, _ => none

/-- JavaScript `Math.min`: returns `NaN` when either argument is `NaN`. -/
def jsMin : JSNum → JSNum → JSNum
  | some a, some b => some (min a b)
  | _, _ => none

/-- JavaScript `Math.max`: returns `NaN` when either argument is `NaN`. -/
def jsMax : JSNum → JSNum → JSNum
  | some a, some b => some (max a b)
  | _, _ => none

/-- JavaScript `Math.round`: `NaN` on `NaN`, else `⌊x + 1/2⌋`. -/
def jsRound : JSNum → JSNum
  | some a => some ((⌊a + 1/2⌋ : ℤ) : ℚ)
  | none => none

/-- Canonical metrics whose fields may be `NaN`. -/
structure JSMetrics where
  tempMax : JSNum
  tempMin : JSNum
  windMax : JSNum
  precipitationSum : JSNum
  avgHumidity : JSNum

/-- The result record of the NaN-aware engine. -/
structure JSLikelihoodResult where
  veryHot : JSNum
  veryCold : JSNum
  veryWindy : JSNum
  veryWet : JSNum
  veryUncomfortable : JSNum

/-- The clamping pattern of src/script.js lines 68-89 in the NaN-aware
model. -/
def jsClamp (x : JSNum) : JSNum := jsMax (some 5) (jsRound (jsMin (some 100) x))

/-- Lines 84-85 of src/script.js in the NaN-aware model. -/
def jsTempHumidityUncomfortable (p : JSMetrics) : JSNum :=
  jsSub p.tempMax
    (jsMul (jsMul (some 0.55) (jsSub (some 1) (jsDiv p.avgHumidity (some 100))))
      (jsSub p.tempMax (some 14.5)))

/-- Function `calculateLikelihoods` (src/script.js lines 65-91) in the
NaN-aware model. -/
def calculateLikelihoodsJS (p : JSMetrics) : JSLikelihoodResult :=
  { veryHot := jsClamp (jsMul (jsDiv p.tempMax (some 40)) (some 100))
    veryCold := jsClamp (jsMul (jsDiv (jsSub (some 10) p.tempMin) (some 20)) (some 100))
    veryWindy := jsClamp (jsMul (jsDiv p.windMax (some 30)) (some 100))
    veryWet := jsClamp (jsMul (jsDiv p.precipitationSum (some 50)) (some 100))
    veryUncomfortable :=
      jsClamp (jsMul (jsDiv (jsTempHumidityUncomfortable p) (some 35)) (some 100)) }

/-- Injection of finite metrics into the NaN-aware model. -/
def JSMetrics.ofMetrics (m : CanonicalMetrics) : JSMetrics :=
  ⟨some m.tempMax, some m.tempMin, some m.windMax, some m.precipitationSum, some m.avgHumidity⟩

/-- Injection of a finite result into the NaN-aware model. -/
def JSLikelihoodResult.ofResult (r : LikelihoodResult) : JSLikelihoodResult :=
  ⟨some (r.veryHot : ℚ), some (r.veryCold : ℚ), some (r.veryWindy : ℚ),
    some (r.veryWet : ℚ), some (r.veryUncomfortable : ℚ)⟩

/-- A score is a clamped numeric value: an integer in `[5, 100]`. -/
def JSClamped (s : JSNum) : Prop := ∃ n : ℤ, s = some (n : ℚ) ∧ 5 ≤ n ∧ n ≤ 100

/-! ### Caller model (fallback path and request metadata). -/

/-- Outcome of the upstream `/api/app` fetch in the predict click handler
(src/script.js lines 282-296): `ok` when the response is ok and carries a
`realWeatherParams` record, `failure` for a thrown error, a non-ok
response, or a missing/malformed body. -/
inductive FetchOutcome where
  | ok (metrics : CanonicalMetrics)
  | failure

/-- The fixed fallback metrics record of the catch block
(src/script.js lines 352-358). -/
def fallback : CanonicalMetrics :=
  { tempMax := 169/10, tempMin := 61/10, windMax := 107/10,
    precipitationSum := 245/10, avgHumidity := 621/10 }

/-- The likelihoods computed by the predict click handler
(src/script.js lines 281-366): on success the engine runs on
`data.realWeatherParams` (line 299); in the catch block it runs on the
fixed fallback record (line 359). -/
def predictLikelihoods : FetchOutcome → LikelihoodResult
  | .ok m => calculateLikelihoods m
  | .failure => calculateLikelihoods fallback

/-- A request as assembled by the predict handler: the engine is invoked
only on the metrics (line 299), while `discomfortThreshold` is carried in
the request body (line 290) as metadata. -/
structure RequestParams where
  metrics : CanonicalMetrics
  discomfortThreshold : ℚ

/-- What the handler feeds the engine from a request: exactly the metrics
record, never the threshold (src/script.js line 299). -/
def engineFromRequest (r : RequestParams) : LikelihoodResult :=
  calculateLikelihoods r.metrics

/-- Validity predicate of the spec: every score lies in
`[MIN_PERCENT, 100] = [5, 100]` (integrality is by the type `ℤ`). -/
def ValidResult (r : LikelihoodResult) : Prop :=
  (5 ≤ r.veryHot ∧ r.veryHot ≤ 100) ∧
  (5 ≤ r.veryCold ∧ r.veryCold ≤ 100) ∧
  (5 ≤ r.veryWindy ∧ r.veryWindy ≤ 100) ∧
  (5 ≤ r.veryWet ∧ r.veryWet ≤ 100) ∧
  (5 ≤ r.veryUncomfortable ∧ r.veryUncomfortable ≤ 100)

/-! ### Helper lemmas about `clamp`. -/

lemma mathRound_mono {x y : ℚ} (h : x ≤ y) : mathRound x ≤ mathRound y :=
  Int.floor_mono (by linarith)

lemma clamp_ge_five (x : ℚ) : 5 ≤ clamp x := le_max_left _ _

lemma mathRound_min_le (x : ℚ) : mathRound (min 100 x) ≤ 100 := by
  have h : mathRound (min 100 x) ≤ mathRound 100 :=
    mathRound_mono (min_le_left _ _)
  have h100 : mathRound (100 : ℚ) = 100 := by
    simp only [mathRound]
    norm_num
  omega

lemma clamp_le_hundred (x : ℚ) : clamp x ≤ 100 := by
  have := mathRound_min_le x
  simp only [clamp, MIN_PERCENT]
  omega

lemma clamp_mono {x y : ℚ} (h : x ≤ y) : clamp x ≤ clamp y :=
  max_le_max le_rfl (mathRound_mono (min_le_min le_rfl h))

lemma clamp_of_nonpos {x : ℚ} (h : x ≤ 0) : clamp x = 5 := by
  have h1 : mathRound (min 100 x) ≤ 0 := by
    have hm : min 100 x ≤ 0 := le_trans (min_le_right _ _) h
    have : mathRound (min 100 x) ≤ mathRound 0 := mathRound_mono hm
    have h0 : mathRound (0 : ℚ) = 0 := by
      simp only [mathRound]
      norm_num
    omega
  simp only [clamp, MIN_PERCENT]
  omega

lemma clamp_of_ge_hundred {x : ℚ} (h : 100 ≤ x) : clamp x = 100 := by
  have hm : min (100 : ℚ) x = 100 := min_eq_left h
  simp only [clamp, MIN_PERCENT, hm, mathRound]
  norm_num

lemma valid_calculateLikelihoods (p : CanonicalMetrics) :
    ValidResult (calculateLikelihoods p) :=
  ⟨⟨clamp_ge_five _, clamp_le_hundred _⟩, ⟨clamp_ge_five _, clamp_le_hundred _⟩,
    ⟨clamp_ge_five _, clamp_le_hundred _⟩, ⟨clamp_ge_five _, clamp_le_hundred _⟩,
    ⟨clamp_ge_five _, clamp_le_hundred _⟩⟩

/-- On every input, the clamp of the spec (half away from zero) and the
clamp of the source (half toward positive infinity) agree: the two
rounding modes differ only at negative exact halves, where both values
are at most 0 and the floor at 5 erases the difference. -/
lemma specClamp_eq_clamp (x : ℚ) : specClamp x = clamp x := by
  by_cases h : 0 ≤ min 100 x
  · simp only [specClamp, specRound, clamp, mathRound, MIN_PERCENT, if_pos h]
  · push_neg at h
    have h1 : mathRound (min 100 x) ≤ 0 := by
      have : mathRound (min 100 x) ≤ mathRound 0 := mathRound_mono (le_of_lt h)
      have h0 : mathRound (0 : ℚ) = 0 := by
        simp only [mathRound]
        norm_num
      omega
    have h2 : (0 : ℤ) ≤ ⌊-(min 100 x) + 1/2⌋ :=
      Int.floor_nonneg.mpr (by linarith)
    simp only [mathRound] at h1
    simp only [specClamp, specRound, clamp, mathRound, MIN_PERCENT, if_neg (not_le.mpr h)]
    omega

lemma jsClamp_some (q : ℚ) : jsClamp (some q) = some ((clamp q : ℤ) : ℚ) := by
  simp only [jsClamp, jsMax, jsRound, jsMin, clamp, mathRound, MIN_PERCENT,
    Int.cast_max]
  norm_num

lemma jsClamp_none_or_clamped (x : JSNum) :
    jsClamp x = none ∨ JSClamped (jsClamp x) := by
  cases x with
  | none => exact Or.inl rfl
  | some q =>
    refine Or.inr ⟨clamp q, jsClamp_some q, ?_, ?_⟩
    · exact clamp_ge_five q
    · exact clamp_le_hundred q

lemma calculateLikelihoodsJS_ofMetrics (m : CanonicalMetrics) :
    calculateLikelihoodsJS (JSMetrics.ofMetrics m) =
      JSLikelihoodResult.ofResult (calculateLikelihoods m) := by
  simp only [calculateLikelihoodsJS, JSMetrics.ofMetrics, jsSub, jsMul, jsDiv,
    jsTempHumidityUncomfortable, JSLikelihoodResult.ofResult, calculateLikelihoods,
    tempHumidityUncomfortable, jsClamp_some]

/-! ### Claim theorems. -/

/-- C1: on every canonical metrics record, `calculateLikelihoods` returns
exactly the five independent per-axis formulas of the spec, with
`clamp(x) = max(5, round(min(100, x)))` capping at 100 first, rounding to
the nearest integer, and flooring at 5 last; a raw value of -30 clamps
to 5. -/
theorem calculateLikelihoods_eq_spec :
    (∀ p : CanonicalMetrics, calculateLikelihoods p = spec_calculateLikelihoods p) ∧
      specClamp (-30) = 5 ∧ clamp (-30) = 5 := by
  refine ⟨fun p => ?_, ?_, ?_⟩
  · simp only [calculateLikelihoods, spec_calculateLikelihoods,
      tempHumidityUncomfortable, specClamp_eq_clamp]
  · rw [specClamp_eq_clamp]
    exact clamp_of_nonpos (by norm_num)
  · exact clamp_of_nonpos (by norm_num)

/-- C2: for every canonical metrics record, each of the five scores of
`calculateLikelihoods` is an integer (by its type) lying in the closed
range `[5, 100]`; no score is 0 or above 100. -/
theorem calculateLikelihoods_scores_in_range (p : CanonicalMetrics) :
    ValidResult (calculateLikelihoods p) :=
  valid_calculateLikelihoods p

/-- C2 witness: the score bounds hold at the fallback record. -/
theorem calculateLikelihoods_scores_in_range_witness :
    ValidResult (calculateLikelihoods ⟨169/10, 61/10, 107/10, 245/10, 621/10⟩) :=
  calculateLikelihoods_scores_in_range ⟨169/10, 61/10, 107/10, 245/10, 621/10⟩

/-- C3 counterexample: with `tempMax = NaN` (and the other fields 0), the
`veryHot` score of the engine is `NaN`: it is not a clamped value, so the
claim that the clamp absorbs degenerate inputs is false as stated. -/
theorem nan_input_not_clamped :
    (calculateLikelihoodsJS ⟨none, some 0, some 0, some 0, some 0⟩).veryHot = none ∧
      ¬ JSClamped (calculateLikelihoodsJS ⟨none, some 0, some 0, some 0, some 0⟩).veryHot := by
  constructor
  · rfl
  · intro ⟨n, hn, _, _⟩
    simp only [calculateLikelihoodsJS, jsDiv, jsMul, jsMin, jsMax, jsRound, jsClamp] at hn
    exact Option.noConfusion hn

/-- C3 amended: `calculateLikelihoods` is total and has no error path: on
every input, including `NaN` fields, each score is a JavaScript number.
On real-valued inputs (including fields defaulted to 0) it agrees with
the finite engine, so every score is a clamped integer in `[5, 100]`;
but a `NaN` field propagates, making the affected scores `NaN` rather
than clamped. -/
theorem calculateLikelihoods_total :
    (∀ m : CanonicalMetrics,
      calculateLikelihoodsJS (JSMetrics.ofMetrics m) =
        JSLikelihoodResult.ofResult (calculateLikelihoods m)) ∧
    (∀ p : JSMetrics,
      ((calculateLikelihoodsJS p).veryHot = none ∨ JSClamped (calculateLikelihoodsJS p).veryHot) ∧
      ((calculateLikelihoodsJS p).veryCold = none ∨ JSClamped (calculateLikelihoodsJS p).veryCold) ∧
      ((calculateLikelihoodsJS p).veryWindy = none ∨ JSClamped (calculateLikelihoodsJS p).veryWindy) ∧
      ((calculateLikelihoodsJS p).veryWet = none ∨ JSClamped (calculateLikelihoodsJS p).veryWet) ∧
      ((calculateLikelihoodsJS p).veryUncomfortable = none ∨
        JSClamped (calculateLikelihoodsJS p).veryUncomfortable)) := by
  refine ⟨calculateLikelihoodsJS_ofMetrics, fun p => ?_⟩
  exact ⟨jsClamp_none_or_clamped _, jsClamp_none_or_clamped _, jsClamp_none_or_clamped _,
    jsClamp_none_or_clamped _, jsClamp_none_or_clamped _⟩

/-- C4 counterexample: on scenario 2, `{tempMax:40, tempMin:10, windMax:30,
precipitationSum:50, avgHumidity:100}`, the `veryCold` score is 5 and not
100, so the scenario as stated (all five scores equal 100) is false. -/
theorem scenario2_veryCold_ne_100 :
    (calculateLikelihoods ⟨40, 10, 30, 50, 100⟩).veryCold = 5 ∧
      (calculateLikelihoods ⟨40, 10, 30, 50, 100⟩).veryCold ≠ 100 := by
  have h : (calculateLikelihoods ⟨40, 10, 30, 50, 100⟩).veryCold = 5 := by
    simp only [calculateLikelihoods, clamp, mathRound, MIN_PERCENT]
    norm_num
  exact ⟨h, by rw [h]; norm_num⟩

/-- C4 amended: scenario 1 yields `(42, 20, 36, 49, 47)` and scenario 3
yields all scores 5, as claimed; scenario 2 yields 100 on `veryHot`,
`veryWindy`, `veryWet` and `veryUncomfortable` but 5 (not 100) on
`veryCold`, since its `tempMin = 10` lies at the warm floor. -/
theorem concrete_scenarios :
    calculateLikelihoods ⟨169/10, 61/10, 107/10, 245/10, 621/10⟩ = ⟨42, 20, 36, 49, 47⟩ ∧
    calculateLikelihoods ⟨40, 10, 30, 50, 100⟩ = ⟨100, 5, 100, 100, 100⟩ ∧
    calculateLikelihoods ⟨0, 10, 0, 0, 100⟩ = ⟨5, 5, 5, 5, 5⟩ := by
  refine ⟨?_, ?_, ?_⟩ <;>
    · simp only [calculateLikelihoods, clamp, mathRound, tempHumidityUncomfortable,
        MIN_PERCENT]
      norm_num

/-- C5: temperature saturation and floor: `tempMax ≥ 40` forces
`veryHot = 100` and `tempMax ≤ 0` forces `veryHot = 5`; `tempMin ≥ 10`
forces `veryCold = 5` and `tempMin ≤ -10` forces `veryCold = 100`. -/
theorem temperature_saturation_and_floor (p : CanonicalMetrics) :
    (40 ≤ p.tempMax → (calculateLikelihoods p).veryHot = 100) ∧
    (p.tempMax ≤ 0 → (calculateLikelihoods p).veryHot = 5) ∧
    (10 ≤ p.tempMin → (calculateLikelihoods p).veryCold = 5) ∧
    (p.tempMin ≤ -10 → (calculateLikelihoods p).veryCold = 100) := by
  refine ⟨fun h => ?_, fun h => ?_, fun h => ?_, fun h => ?_⟩
  · refine clamp_of_ge_hundred ?_
    rw [div_mul_eq_mul_div, le_div_iff₀ (by norm_num : (0:ℚ) < 40)]
    linarith
  · refine clamp_of_nonpos ?_
    rw [div_mul_eq_mul_div, div_nonpos_iff]
    right
    constructor <;> linarith
  · refine clamp_of_nonpos ?_
    rw [div_mul_eq_mul_div, div_nonpos_iff]
    right
    constructor <;> linarith
  · refine clamp_of_ge_hundred ?_
    rw [div_mul_eq_mul_div, le_div_iff₀ (by norm_num : (0:ℚ) < 20)]
    linarith

/-- C5 witness: the saturations and floors at `tempMax = 40`, `tempMin = 10`
and at `tempMax = 0`, `tempMin = -10`. -/
theorem temperature_saturation_and_floor_witness :
    (calculateLikelihoods ⟨40, 10, 0, 0, 0⟩).veryHot = 100 ∧
    (calculateLikelihoods ⟨40, 10, 0, 0, 0⟩).veryCold = 5 ∧
    (calculateLikelihoods ⟨0, -10, 0, 0, 0⟩).veryHot = 5 ∧
    (calculateLikelihoods ⟨0, -10, 0, 0, 0⟩).veryCold = 100 :=
  ⟨(temperature_saturation_and_floor ⟨40, 10, 0, 0, 0⟩).1 (by norm_num),
    (temperature_saturation_and_floor ⟨40, 10, 0, 0, 0⟩).2.2.1 (by norm_num),
    (temperature_saturation_and_floor ⟨0, -10, 0, 0, 0⟩).2.1 (by norm_num),
    (temperature_saturation_and_floor ⟨0, -10, 0, 0, 0⟩).2.2.2 (by norm_num)⟩

/-- C6: wind and precipitation saturation and floor: `windMax ≥ 30` forces
`veryWindy = 100` and `windMax = 0` forces `veryWindy = 5`;
`precipitationSum ≥ 50` forces `veryWet = 100` and `precipitationSum = 0`
forces `veryWet = 5`. -/
theorem wind_precip_saturation_and_floor (p : CanonicalMetrics) :
    (30 ≤ p.windMax → (calculateLikelihoods p).veryWindy = 100) ∧
    (p.windMax = 0 → (calculateLikelihoods p).veryWindy = 5) ∧
    (50 ≤ p.precipitationSum → (calculateLikelihoods p).veryWet = 100) ∧
    (p.precipitationSum = 0 → (calculateLikelihoods p).veryWet = 5) := by
  refine ⟨fun h => ?_, fun h => ?_, fun h => ?_, fun h => ?_⟩
  · refine clamp_of_ge_hundred ?_
    rw [div_mul_eq_mul_div, le_div_iff₀ (by norm_num : (0:ℚ) < 30)]
    linarith
  · exact clamp_of_nonpos (by rw [h]; norm_num)
  · refine clamp_of_ge_hundred ?_
    rw [div_mul_eq_mul_div, le_div_iff₀ (by norm_num : (0:ℚ) < 50)]
    linarith
  · exact clamp_of_nonpos (by rw [h]; norm_num)

/-- C6 witness: the saturations at `windMax = 30`, `precipitationSum = 50`
and the floors at `windMax = 0`, `precipitationSum = 0`. -/
theorem wind_precip_saturation_and_floor_witness :
    (calculateLikelihoods ⟨0, 0, 30, 50, 0⟩).veryWindy = 100 ∧
    (calculateLikelihoods ⟨0, 0, 30, 50, 0⟩).veryWet = 100 ∧
    (calculateLikelihoods ⟨0, 0, 0, 0, 0⟩).veryWindy = 5 ∧
    (calculateLikelihoods ⟨0, 0, 0, 0, 0⟩).veryWet = 5 :=
  ⟨(wind_precip_saturation_and_floor ⟨0, 0, 30, 50, 0⟩).1 (by norm_num),
    (wind_precip_saturation_and_floor ⟨0, 0, 30, 50, 0⟩).2.2.1 (by norm_num),
    (wind_precip_saturation_and_floor ⟨0, 0, 0, 0, 0⟩).2.1 rfl,
    (wind_precip_saturation_and_floor ⟨0, 0, 0, 0, 0⟩).2.2.2 rfl⟩

/-- C7: at `avgHumidity = 100` the humidity correction vanishes: the
intermediate apparent-discomfort temperature equals `tempMax` exactly, and
`veryUncomfortable` is computed directly from `tempMax` as
`clamp(tempMax / 35 * 100)`. -/
theorem humidity_100_no_correction (p : CanonicalMetrics) (h : p.avgHumidity = 100) :
    tempHumidityUncomfortable p = p.tempMax ∧
      (calculateLikelihoods p).veryUncomfortable = clamp (p.tempMax / 35 * 100) := by
  have hadj : tempHumidityUncomfortable p = p.tempMax := by
    simp only [tempHumidityUncomfortable, h]
    ring
  exact ⟨hadj, by simp only [calculateLikelihoods, hadj]⟩

/-- C7 witness: the correction vanishes at the record
`(tempMax, tempMin, windMax, precipitationSum, avgHumidity) = (0,0,0,0,100)`. -/
theorem humidity_100_no_correction_witness :
    tempHumidityUncomfortable ⟨0, 0, 0, 0, 100⟩ =
        (⟨0, 0, 0, 0, 100⟩ : CanonicalMetrics).tempMax ∧
      (calculateLikelihoods ⟨0, 0, 0, 0, 100⟩).veryUncomfortable =
        clamp ((⟨0, 0, 0, 0, 100⟩ : CanonicalMetrics).tempMax / 35 * 100) :=
  humidity_100_no_correction ⟨0, 0, 0, 0, 100⟩ rfl

/-- C8: when the upstream fetch fails, the predict handler substitutes the
fixed fallback record `(16.9, 6.1, 10.7, 24.5, 62.1)` and still invokes
the engine on it; on every fetch outcome the user obtains a valid
likelihood result, so no failure propagates past the boundary. -/
theorem fallback_path_valid :
    (predictLikelihoods .failure = calculateLikelihoods fallback) ∧
      (fallback = ⟨169/10, 61/10, 107/10, 245/10, 621/10⟩) ∧
      (∀ o : FetchOutcome, ValidResult (predictLikelihoods o)) := by
  refine ⟨rfl, by norm_num [fallback], fun o => ?_⟩
  cases o with
  | ok m => exact valid_calculateLikelihoods m
  | failure => exact valid_calculateLikelihoods fallback

/-- C9: determinism and threshold noninterference: two requests agreeing on
the five metric fields produce identical likelihood results, whatever
their `discomfortThreshold` metadata; the engine reads no other state. -/
theorem threshold_noninterference (r₁ r₂ : RequestParams)
    (h1 : r₁.metrics.tempMax = r₂.metrics.tempMax)
    (h2 : r₁.metrics.tempMin = r₂.metrics.tempMin)
    (h3 : r₁.metrics.windMax = r₂.metrics.windMax)
    (h4 : r₁.metrics.precipitationSum = r₂.metrics.precipitationSum)
    (h5 : r₁.metrics.avgHumidity = r₂.metrics.avgHumidity) :
    engineFromRequest r₁ = engineFromRequest r₂ := by
  obtain ⟨⟨a₁, b₁, c₁, d₁, e₁⟩, t₁⟩ := r₁
  obtain ⟨⟨a₂, b₂, c₂, d₂, e₂⟩, t₂⟩ := r₂
  simp only at h1 h2 h3 h4 h5
  subst h1 h2 h3 h4 h5
  rfl

/-- C9 witness: two requests with equal metrics but thresholds 20 and 35
produce the same result. -/
theorem threshold_noninterference_witness :
    engineFromRequest ⟨⟨169/10, 61/10, 107/10, 245/10, 621/10⟩, 20⟩ =
      engineFromRequest ⟨⟨169/10, 61/10, 107/10, 245/10, 621/10⟩, 35⟩ :=
  threshold_noninterference _ _ rfl rfl rfl rfl rfl

/-- C10: per-axis monotonicity: holding the other fields fixed, `veryHot`
is non-decreasing in `tempMax`, `veryWindy` in `windMax`, `veryWet` in
`precipitationSum`, and `veryCold` is non-increasing in `tempMin`. -/
theorem per_axis_monotonicity (p : CanonicalMetrics) (x y : ℚ) (h : x ≤ y) :
    (calculateLikelihoods { p with tempMax := x }).veryHot ≤
      (calculateLikelihoods { p with tempMax := y }).veryHot ∧
    (calculateLikelihoods { p with windMax := x }).veryWindy ≤
      (calculateLikelihoods { p with windMax := y }).veryWindy ∧
    (calculateLikelihoods { p with precipitationSum := x }).veryWet ≤
      (calculateLikelihoods { p with precipitationSum := y }).veryWet ∧
    (calculateLikelihoods { p with tempMin := y }).veryCold ≤
      (calculateLikelihoods { p with tempMin := x }).veryCold := by
  refine ⟨clamp_mono ?_, clamp_mono ?_, clamp_mono ?_, clamp_mono ?_⟩ <;>
    · simp only
      linarith

/-- C10 witness: the four monotonicity facts at the all-zero record with
the varying field moved from 1 to 2. -/
theorem per_axis_monotonicity_witness :
    (calculateLikelihoods ⟨1, 0, 0, 0, 0⟩).veryHot ≤
      (calculateLikelihoods ⟨2, 0, 0, 0, 0⟩).veryHot ∧
    (calculateLikelihoods ⟨0, 0, 1, 0, 0⟩).veryWindy ≤
      (calculateLikelihoods ⟨0, 0, 2, 0, 0⟩).veryWindy ∧
    (calculateLikelihoods ⟨0, 0, 0, 1, 0⟩).veryWet ≤
      (calculateLikelihoods ⟨0, 0, 0, 2, 0⟩).veryWet ∧
    (calculateLikelihoods ⟨0, 2, 0, 0, 0⟩).veryCold ≤
      (calculateLikelihoods ⟨0, 1, 0, 0, 0⟩).veryCold :=
  per_axis_monotonicity ⟨0, 0, 0, 0, 0⟩ 1 2 (by norm_num)

end WeatherWizard
